import Mathlib

/-!
Verification of the presigned-upload worker (`src/unnamed/part_000`, lines 581-706):
the upload-intent issuer `handleUploadUrl`, the upload-confirmation validator
`handleConfirmUpload`, and the shared response helper `corsResponse`.

The JavaScript handlers are embedded shallowly:
* The mutable module-level `s3Client` becomes an explicit `Option S3Client`
  argument, with `initS3Client` embedding the guarded construction in `fetch`.
* `Date.now()` and `crypto.randomUUID()` become explicit `now : Nat` and
  `uuid : String` arguments; `uuidCheck` captures the 8-4-4-4-12 lowercase-hex
  shape that `crypto.randomUUID` guarantees.
* `await request.json()` becomes an explicit body value: either `malformed`
  (the parse or destructuring threw, carrying the runtime error message) or
  `parsed` with `Option String` fields (`none` models an absent field; JS
  falsiness of `undefined` and `""` is `truthyOpt`).
* The `getSignedUrl` call becomes `signResult : Except String String`
  (error message or presigned URL); whether it was reached at all is recorded
  in the `backendCalled` flag of the outcome.
* The JavaScript regexes `/[^\w\s.-]/g` (sanitization), and
  `/^uploads\/\d+-[\w-]+-.*$/` (key validation) are embedded with JS
  character-class semantics: `\w` is ASCII word characters, `\s` is the JS
  whitespace set, and `.` excludes the four JS line terminators.
-/

namespace UploadWorker

/-! ### JavaScript regex character classes -/

/-- JS `\d`: ASCII digits. -/
def isAsciiDigit (c : Char) : Bool :=
  decide ('0' ≤ c) && decide (c ≤ '9')

/-- JS `\w`: ASCII letters, digits and underscore. -/
def isWordChar (c : Char) : Bool :=
  isAsciiDigit c || (decide ('a' ≤ c) && decide (c ≤ 'z')) ||
    (decide ('A' ≤ c) && decide (c ≤ 'Z')) || c == '_'

/-- JS `\s`: the ECMAScript WhiteSpace and LineTerminator characters. -/
def isJsSpace (c : Char) : Bool :=
  c == '\t' || c == '\n' || c == '\u000B' || c == '\u000C' || c == '\r' ||
  c == ' ' || c == ' ' || c == ' ' ||
  (decide (' ' ≤ c) && decide (c ≤ ' ')) ||
  c == ' ' || c == ' ' || c == ' ' || c == ' ' ||
  c == '　' || c == '﻿'

/-- The four ECMAScript line terminators, which JS `.` does not match. -/
def isLineTerm (c : Char) : Bool :=
  c == '\n' || c == '\r' || c == ' ' || c == ' '

/-- JS `.` (without the `s` flag): any character except a line terminator. -/
def dotChar (c : Char) : Bool := !(isLineTerm c)

/-- The character class `[\w\s.-]` kept by the sanitization regex
`filename.replace(/[^\w\s.-]/g, '_')`. -/
def jsKeepChar (c : Char) : Bool :=
  isWordChar c || isJsSpace c || c == '.' || c == '-'

/-- The class `[A-Za-z0-9_.\-]` named by the specification as the allowed
filename alphabet (it does not include whitespace). -/
def specAllowedChar (c : Char) : Bool :=
  isWordChar c || c == '.' || c == '-'

/-! ### Issuer: sanitization and key construction -/

/-- `filename.replace(/[^\w\s.-]/g, '_')`: every character outside `[\w\s.-]`
is replaced by an underscore; the regex matches single characters, so the
global replace is a character-wise map. -/
def sanitizeFilename (s : String) : String :=
  String.mk (s.data.map (fun c => if jsKeepChar c then c else '_'))

/-- The key template literal of `handleUploadUrl` (line 629): the literal
segment `uploads` and a slash, then `Date.now()`, a hyphen,
`crypto.randomUUID()`, a hyphen, and the sanitized filename. `Date.now()`
stringifies as the decimal `Nat.repr`. -/
def uploadKey (now : Nat) (uuid : String) (filename : String) : String :=
  "uploads/" ++ Nat.repr now ++ "-" ++ uuid ++ "-" ++ sanitizeFilename filename

/-! ### Validator: the key-shape regex -/

/-- Consume an exact literal from the front of a character list. -/
def stripLit : List Char → List Char → Option (List Char)
  | [], l => some l
  | _ :: _, [] => none
  | p :: ps, c :: cs => if c == p then stripLit ps cs else none

/-- One candidate split of the tail for `CLS+-.*$`: the first `i` characters
are in the class `cls`, position `i` holds the literal hyphen, and the rest is
matched by `.*` (no line terminators). -/
def midSplitOK (cls : Char → Bool) (l : List Char) (i : Nat) : Bool :=
  (i != 0) && (l.take i).all cls && (l.getD i ' ' == '-') &&
    (l.drop (i + 1)).all dotChar

/-- Backtracking disjunction for `CLS+-.*$`: some split position works. -/
def midMatch (cls : Char → Bool) (l : List Char) : Bool :=
  (List.range l.length).any (midSplitOK cls l)

/-- After the digit run: a literal hyphen, then the `CLS+-.*` middle. -/
def hyphenTail (cls : Char → Bool) : List Char → Bool
  | [] => false
  | c :: r2 => c == '-' && midMatch cls r2

/-- The part after the literal `uploads/`: `\d+` then hyphen then the middle.
Because the character after the `\d+` run must be a hyphen, the digit run is
exactly the maximal one. -/
def keyShapeTail (cls : Char → Bool) (r : List Char) : Bool :=
  (!(r.takeWhile isAsciiDigit).isEmpty) &&
    hyphenTail cls (r.dropWhile isAsciiDigit)

/-- Anchored match of `^uploads\/\d+-CLS+-.*$` against a whole string. -/
def keyShapeMatch (cls : Char → Bool) (s : String) : Bool :=
  match stripLit "uploads/".data s.data with
  | none => false
  | some r => keyShapeTail cls r

/-- JS `[\w-]`: the middle class of the validator regex in the source. -/
def isWordOrHyphen (c : Char) : Bool := isWordChar c || c == '-'

/-- The validator test `/^uploads\/\d+-[\w-]+-.*$/.test(key)` from
`handleConfirmUpload`. -/
def confirmKeyMatch (s : String) : Bool := keyShapeMatch isWordOrHyphen s

/-- Modelled from the spec: the pattern `^uploads/\d+-\S+-.*$` that the
specification claims the validator enforces, whose middle segment admits any
non-whitespace characters (`\S`) rather than the source's `[\w-]`. -/
def specKeyMatch (s : String) : Bool :=
  keyShapeMatch (fun c => !(isJsSpace c)) s

/-! ### The shape of `crypto.randomUUID()` output -/

/-- Lowercase hexadecimal digit, as produced by `crypto.randomUUID`. -/
def isHexLower (c : Char) : Bool :=
  isAsciiDigit c || (decide ('a' ≤ c) && decide (c ≤ 'f'))

/-- Consume exactly `n` lowercase-hex characters. -/
def hexRun : Nat → List Char → Option (List Char)
  | 0, l => some l
  | _ + 1, [] => none
  | n + 1, c :: l => if isHexLower c then hexRun n l else none

/-- The 8-4-4-4-12 lowercase-hex shape of `crypto.randomUUID()` output. -/
def uuidCheck (l : List Char) : Bool :=
  match hexRun 8 l with
  | some ('-' :: r1) =>
    (match hexRun 4 r1 with
     | some ('-' :: r2) =>
       (match hexRun 4 r2 with
        | some ('-' :: r3) =>
          (match hexRun 4 r3 with
           | some ('-' :: r4) =>
             (match hexRun 12 r4 with
              | some [] => true
              | _ => false)
           | _ => false)
        | _ => false)
     | _ => false)
  | _ => false

/-! ### Environment, client and responses -/

/-- The constructed `S3Client` (line 593): region plus credentials. -/
structure S3Client where
  region : String
  accessKeyId : String
  secretAccessKey : String
deriving DecidableEq

/-- The worker environment bindings read by the handlers. `none` models an
absent variable; an empty string is also falsy in the JS guards. -/
structure WorkerEnv where
  AWS_ACCESS_KEY_ID : Option String
  AWS_SECRET_ACCESS_KEY : Option String
  AWS_REGION : Option String
  AWS_S3_BUCKET : String
  ALLOWED_ORIGIN : Option String
deriving DecidableEq

/-- JS truthiness of an optional string: `undefined` and `""` are falsy. -/
def truthyOpt : Option String → Bool
  | none => false
  | some s => !s.isEmpty

/-- The guarded lazy construction of the module-level `s3Client` in `fetch`
(lines 592-600): construct only if absent and all three credentials truthy. -/
def initS3Client (cur : Option S3Client) (env : WorkerEnv) : Option S3Client :=
  match cur with
  | some c => some c
  | none =>
    if truthyOpt env.AWS_ACCESS_KEY_ID && truthyOpt env.AWS_SECRET_ACCESS_KEY
        && truthyOpt env.AWS_REGION then
      some { region := env.AWS_REGION.getD ""
             accessKeyId := env.AWS_ACCESS_KEY_ID.getD ""
             secretAccessKey := env.AWS_SECRET_ACCESS_KEY.getD "" }
    else none

/-- The JSON bodies the two handlers produce, structurally. -/
inductive RespBody where
  | errorOnly (error : String)
  | errorDetails (error details : String)
  | uploadSuccess (url key bucket : String)
  | confirmSuccess (message imageUrl : String)
deriving DecidableEq

/-- `env.ALLOWED_ORIGIN || "*"`. -/
def jsOrigin (env : WorkerEnv) : String :=
  match env.ALLOWED_ORIGIN with
  | some s => if s.isEmpty then "*" else s
  | none => "*"

/-- A JSON response as built by `corsResponse`: status, body and the three
headers it sets. -/
structure HttpJsonResponse where
  status : Nat
  body : RespBody
  contentType : String
  accessControlAllowOrigin : String
  cacheControl : String
deriving DecidableEq

/-- `corsResponse(body, env, status)` (lines 697-706). -/
def corsResponse (body : RespBody) (env : WorkerEnv) (status : Nat) :
    HttpJsonResponse :=
  { status := status
    body := body
    contentType := "application/json"
    accessControlAllowOrigin := jsOrigin env
    cacheControl := if status == 200 then "private, no-cache" else "no-store" }

/-- The issuer request body after `await request.json()`: either the parse
threw (with a runtime message) or it produced the two optional fields. -/
inductive UploadBody where
  | malformed (msg : String)
  | parsed (filename filetype : Option String)
deriving DecidableEq

/-- The validator request body after `await request.json()` and the
destructuring `const { key } = ...`: either that threw, or it yielded an
optional `key`. -/
inductive ConfirmBody where
  | malformed (msg : String)
  | parsed (key : Option String)
deriving DecidableEq

/-- Result of one issuer invocation: the HTTP response plus whether the
storage-backend signing call (`getSignedUrl`) was reached. -/
structure UploadOutcome where
  response : HttpJsonResponse
  backendCalled : Bool
deriving DecidableEq

/-- Result of one validator invocation, with the same backend-call flag. -/
structure ConfirmOutcome where
  response : HttpJsonResponse
  backendCalled : Bool
deriving DecidableEq

/-- The message of the error thrown at line 616. -/
def s3InitFailMsg : String :=
  "S3 client could not be initialized. Check AWS credentials."

/-- `handleUploadUrl` (lines 613-653). The `try` block throws (caught into
the 500 branch) when the client is absent, the JSON parse fails, or the
signing call fails; missing fields short-circuit to 400 before any backend
interaction. -/
def handleUploadUrl (client : Option S3Client) (env : WorkerEnv)
    (body : UploadBody) (now : Nat) (uuid : String)
    (signResult : Except String String) : UploadOutcome :=
  match client with
  | none =>
    { response := corsResponse
        (RespBody.errorDetails "Failed to generate upload URL" s3InitFailMsg)
        env 500
      backendCalled := false }
  | some _ =>
    match body with
    | UploadBody.malformed msg =>
      { response := corsResponse
          (RespBody.errorDetails "Failed to generate upload URL" msg) env 500
        backendCalled := false }
    | UploadBody.parsed filename filetype =>
      if !(truthyOpt filename) || !(truthyOpt filetype) then
        { response := corsResponse
            (RespBody.errorOnly "Missing required parameters: filename and filetype")
            env 400
          backendCalled := false }
      else
        match signResult with
        | Except.error msg =>
          { response := corsResponse
              (RespBody.errorDetails "Failed to generate upload URL" msg) env 500
            backendCalled := true }
        | Except.ok presignedUrl =>
          { response := corsResponse
              (RespBody.uploadSuccess presignedUrl
                (uploadKey now uuid (filename.getD "")) env.AWS_S3_BUCKET)
              env 200
            backendCalled := true }

/-- `handleConfirmUpload` (lines 655-683). -/
def handleConfirmUpload (env : WorkerEnv) (body : ConfirmBody) :
    ConfirmOutcome :=
  match body with
  | ConfirmBody.malformed msg =>
    { response := corsResponse
        (RespBody.errorDetails "Failed to confirm upload" msg) env 500
      backendCalled := false }
  | ConfirmBody.parsed key =>
    if !(truthyOpt key) then
      { response := corsResponse
          (RespBody.errorOnly "Missing required parameter: key") env 400
        backendCalled := false }
    else if !(confirmKeyMatch (key.getD "")) then
      { response := corsResponse (RespBody.errorOnly "Invalid key format")
          env 400
        backendCalled := false }
    else
      { response := corsResponse
          (RespBody.confirmSuccess "Upload confirmed!"
            ("https://" ++ env.AWS_S3_BUCKET ++ ".s3.amazonaws.com/"
              ++ key.getD ""))
          env 200
        backendCalled := false }

/-! ### Decimal representation facts about `Nat.repr`

`Date.now()` interpolates into the template literal as its decimal digit
string, embedded as `Nat.repr`. The lemmas below characterize that digit
string through `Nat.digits`. -/

/-- The decimal digit characters of `n`, most significant first. -/
def digRep (n : Nat) : List Char :=
  if n = 0 then ['0'] else ((Nat.digits 10 n).map Nat.digitChar).reverse

lemma digitChar_isAsciiDigit {d : Nat} (h : d < 10) :
    isAsciiDigit (Nat.digitChar d) = true := by
  interval_cases d <;> decide

/-- Numeric value of a decimal digit character. -/
def unDigit (c : Char) : Nat := c.toNat - 48

lemma unDigit_digitChar {d : Nat} (h : d < 10) :
    unDigit (Nat.digitChar d) = d := by
  interval_cases d <;> decide

lemma digRep_small {n : Nat} (h0 : n ≠ 0) (h : n < 10) :
    digRep n = [Nat.digitChar (n % 10)] := by
  unfold digRep
  rw [if_neg h0, Nat.digits_def' (by norm_num) (Nat.pos_of_ne_zero h0)]
  have : n / 10 = 0 := Nat.div_eq_of_lt h
  rw [this]
  simp

lemma digRep_step {n : Nat} (h : 10 ≤ n) :
    digRep n = digRep (n / 10) ++ [Nat.digitChar (n % 10)] := by
  have h0 : n ≠ 0 := by omega
  have h10 : n / 10 ≠ 0 := by
    have : 10 / 10 ≤ n / 10 := Nat.div_le_div_right h
    omega
  unfold digRep
  rw [if_neg h0, if_neg h10, Nat.digits_def' (by norm_num) (Nat.pos_of_ne_zero h0)]
  simp

lemma toDigitsCore_eq : ∀ (f n : Nat) (ds : List Char), n < f →
    Nat.toDigitsCore 10 f n ds = digRep n ++ ds := by
  intro f
  induction f with
  | zero => intro n ds h; omega
  | succ f ih =>
    intro n ds h
    rw [Nat.toDigitsCore]
    by_cases h0 : n / 10 = 0
    · have hn : n < 10 := by
        by_contra hlt
        push_neg at hlt
        have h1 : 1 ≤ n / 10 := (Nat.one_le_div_iff (by norm_num)).mpr hlt
        omega
      rw [if_pos h0]
      by_cases hz : n = 0
      · subst hz; rfl
      · rw [digRep_small hz hn]; rfl
    · have hge : 10 ≤ n := by
        by_contra hlt
        exact h0 (Nat.div_eq_of_lt (by omega))
      rw [if_neg h0]
      have hrec : n / 10 < f := by
        have hlt : n / 10 < n := Nat.div_lt_self (by omega) (by norm_num)
        omega
      rw [ih (n / 10) (Nat.digitChar (n % 10) :: ds) hrec, digRep_step hge,
        List.append_assoc]
      rfl

lemma toDigits10 (n : Nat) : Nat.toDigits 10 n = digRep n := by
  have : Nat.toDigits 10 n = Nat.toDigitsCore 10 (n + 1) n [] := rfl
  rw [this, toDigitsCore_eq (n + 1) n [] (Nat.lt_succ_self n), List.append_nil]

lemma repr_data (n : Nat) : (Nat.repr n).data = digRep n := by
  rw [show Nat.repr n = (Nat.toDigits 10 n).asString from rfl, toDigits10]
  rfl

lemma digRep_all_digits (n : Nat) : (digRep n).all isAsciiDigit = true := by
  unfold digRep
  split
  · decide
  · rw [List.all_eq_true]
    intro c hc
    rw [List.mem_reverse, List.mem_map] at hc
    obtain ⟨d, hd, rfl⟩ := hc
    exact digitChar_isAsciiDigit (Nat.digits_lt_base (by norm_num) hd)

lemma digRep_ne_nil (n : Nat) : digRep n ≠ [] := by
  unfold digRep
  split
  · simp
  · simp only [ne_eq, List.reverse_eq_nil_iff, List.map_eq_nil_iff]
    exact Nat.digits_ne_nil_iff_ne_zero.mpr (by assumption)

/-- Value of a decimal digit string, most significant digit first. -/
def decodeNat (l : List Char) : Nat :=
  l.foldl (fun a c => 10 * a + unDigit c) 0

lemma decodeNat_append_one (l : List Char) (c : Char) :
    decodeNat (l ++ [c]) = 10 * decodeNat l + unDigit c := by
  unfold decodeNat
  rw [List.foldl_append]
  rfl

lemma decode_digRep : ∀ n, decodeNat (digRep n) = n := by
  intro n
  induction n using Nat.strong_induction_on with
  | _ n ih =>
    by_cases hz : n = 0
    · subst hz; decide
    · by_cases hn : n < 10
      · rw [digRep_small hz hn]
        have h1 : decodeNat [Nat.digitChar (n % 10)] =
            unDigit (Nat.digitChar (n % 10)) := by
          simp [decodeNat]
        rw [h1, unDigit_digitChar (by omega : n % 10 < 10), Nat.mod_eq_of_lt hn]
      · have hge : 10 ≤ n := by omega
        rw [digRep_step hge, decodeNat_append_one,
          ih (n / 10) (Nat.div_lt_self (by omega) (by norm_num)),
          unDigit_digitChar (Nat.mod_lt n (by norm_num))]
        omega

lemma digRep_inj {m n : Nat} (h : digRep m = digRep n) : m = n := by
  have := congrArg decodeNat h
  rwa [decode_digRep, decode_digRep] at this

lemma repr_inj {m n : Nat} (h : Nat.repr m = Nat.repr n) : m = n :=
  digRep_inj (by rw [← repr_data, ← repr_data, h])

/-! ### List and string helpers -/

lemma str_data_append (a b : String) : (a ++ b).data = a.data ++ b.data := rfl

lemma str_eq_of_data {a b : String} (h : a.data = b.data) : a = b := by
  cases a; cases b; exact congrArg String.mk h

lemma keyShapeMatch_eq (cls : Char → Bool) (s : String) (r : List Char)
    (h : stripLit "uploads/".data s.data = some r) :
    keyShapeMatch cls s = keyShapeTail cls r := by
  rw [keyShapeMatch, h]

lemma stripLit_append (p l : List Char) : stripLit p (p ++ l) = some l := by
  induction p with
  | nil => rfl
  | cons c cs ih => simp [stripLit, ih]

lemma takeWhile_ctx {p : Char → Bool} {xs : List Char} {c : Char} (r : List Char)
    (hx : xs.all p = true) (hc : p c = false) :
    (xs ++ c :: r).takeWhile p = xs ∧ (xs ++ c :: r).dropWhile p = c :: r := by
  induction xs with
  | nil => simp [List.takeWhile_cons, List.dropWhile_cons, hc]
  | cons x xs ih =>
    rw [List.all_cons, Bool.and_eq_true] at hx
    obtain ⟨h1, h2⟩ := hx
    obtain ⟨ht, hd⟩ := ih h2
    constructor
    · simp [List.takeWhile_cons, h1, ht]
    · simp [List.dropWhile_cons, h1, hd]

/-! ### Structure of a `crypto.randomUUID()` string -/

lemma hexRun_some : ∀ (n : Nat) (l r : List Char), hexRun n l = some r →
    ∃ w, l = w ++ r ∧ w.length = n ∧ w.all isHexLower = true := by
  intro n
  induction n with
  | zero =>
    intro l r h
    have hl : l = r := by simpa [hexRun] using h
    exact ⟨[], by simp [hl], rfl, rfl⟩
  | succ n ih =>
    intro l r h
    cases l with
    | nil => simp [hexRun] at h
    | cons c l' =>
      rw [hexRun] at h
      by_cases hc : isHexLower c = true
      · rw [if_pos hc] at h
        obtain ⟨w, hw1, hw2, hw3⟩ := ih l' r h
        exact ⟨c :: w, by simp [hw1], by simp [hw2],
          by simp [List.all_cons, hc, hw3]⟩
      · rw [if_neg hc] at h
        simp at h

lemma all_hex_weaken {w : List Char} (h : w.all isHexLower = true) :
    w.all (fun c => isHexLower c || c == '-') = true := by
  rw [List.all_eq_true] at h ⊢
  intro c hc
  simp [h c hc]

lemma uuidCheck_parts {l : List Char} (h : uuidCheck l = true) :
    ∃ a r, l = a ++ '-' :: r ∧ a.length = 8 ∧ a.all isHexLower = true ∧
      r.all (fun c => isHexLower c || c == '-') = true ∧ l.length = 36 := by
  unfold uuidCheck at h
  split at h
  case _ r1 heq1 =>
    split at h
    case _ r2 heq2 =>
      split at h
      case _ r3 heq3 =>
        split at h
        case _ r4 heq4 =>
          split at h
          case _ heq5 =>
            obtain ⟨w8, h81, h82, h83⟩ := hexRun_some 8 l _ heq1
            obtain ⟨wa, ha1, ha2, ha3⟩ := hexRun_some 4 r1 _ heq2
            obtain ⟨wb, hb1, hb2, hb3⟩ := hexRun_some 4 r2 _ heq3
            obtain ⟨wc, hc1, hc2, hc3⟩ := hexRun_some 4 r3 _ heq4
            obtain ⟨wd, hd1, hd2, hd3⟩ := hexRun_some 12 r4 _ heq5
            rw [List.append_nil] at hd1
            refine ⟨w8, r1, h81, h82, h83, ?_, ?_⟩
            · subst hd1 hc1 hb1 ha1
              simp only [List.all_append, List.all_cons, Bool.and_eq_true]
              refine ⟨all_hex_weaken ha3, by decide,
                all_hex_weaken hb3, by decide,
                all_hex_weaken hc3, by decide, all_hex_weaken hd3⟩
            · subst h81 ha1 hb1 hc1 hd1
              simp only [List.length_append, List.length_cons] at *
              omega
          all_goals simp at h
        all_goals simp at h
      all_goals simp at h
    all_goals simp at h
  all_goals simp at h

/-! ### Character-class implications -/

lemma hex_isWordChar {c : Char} (h : isHexLower c = true) :
    isWordChar c = true := by
  simp only [isHexLower, Bool.or_eq_true, Bool.and_eq_true,
    decide_eq_true_eq] at h
  rcases h with h | ⟨h1, h2⟩
  · simp [isWordChar, h]
  · have h3 : c ≤ 'z' := le_trans h2 (by decide)
    simp [isWordChar, h1, h3]

lemma hex_dotChar {c : Char} (h : isHexLower c = true) : dotChar c = true := by
  rw [dotChar, Bool.not_eq_true']
  rw [isLineTerm]
  simp only [Bool.or_eq_false_iff, beq_eq_false_iff_ne, ne_eq]
  refine ⟨⟨⟨?_, ?_⟩, ?_⟩, ?_⟩ <;> rintro rfl <;> revert h <;> decide

lemma hexOrHyphen_dotChar {c : Char}
    (h : (isHexLower c || c == '-') = true) : dotChar c = true := by
  rcases Bool.or_eq_true_iff.mp h with h' | h'
  · exact hex_dotChar h'
  · have : c = '-' := by simpa using h'
    subst this; decide

/-! ### Sanitized filenames -/

lemma sanitize_data (s : String) :
    (sanitizeFilename s).data =
      s.data.map (fun c => if jsKeepChar c then c else '_') := rfl

lemma sanitize_dotChar {s : String}
    (h : s.data.all (fun c => !(isLineTerm c)) = true) :
    (sanitizeFilename s).data.all dotChar = true := by
  rw [sanitize_data, List.all_map]
  rw [List.all_eq_true] at h ⊢
  intro c hc
  have hns := h c hc
  by_cases hk : jsKeepChar c = true
  · simpa [Function.comp, hk, dotChar] using hns
  · simp [Function.comp, hk]
    decide

/-! ### The central round-trip lemma: issued keys pass the validator regex -/

lemma uploadKey_data (now : Nat) (uuid fn : String) :
    (uploadKey now uuid fn).data =
      "uploads/".data ++ ((Nat.repr now).data ++
        '-' :: (uuid.data ++ '-' :: (sanitizeFilename fn).data)) := by
  simp [uploadKey, str_data_append, List.append_assoc]

lemma issuedKey_matches (now : Nat) {uuid fn : String}
    (hu : uuidCheck uuid.data = true)
    (hfn : fn.data.all (fun c => !(isLineTerm c)) = true) :
    confirmKeyMatch (uploadKey now uuid fn) = true := by
  obtain ⟨a, r, hdecomp, hlen, hahex, hrcls, _⟩ := uuidCheck_parts hu
  have hstrip : stripLit "uploads/".data (uploadKey now uuid fn).data =
      some ((Nat.repr now).data ++
        '-' :: (uuid.data ++ '-' :: (sanitizeFilename fn).data)) := by
    rw [uploadKey_data]
    exact stripLit_append _ _
  rw [confirmKeyMatch, keyShapeMatch_eq isWordOrHyphen _ _ hstrip,
    keyShapeTail, repr_data]
  have hctx := takeWhile_ctx (p := isAsciiDigit)
    (uuid.data ++ '-' :: (sanitizeFilename fn).data)
    (digRep_all_digits now) (by decide : isAsciiDigit '-' = false)
  rw [hctx.1, hctx.2]
  simp only [hyphenTail, beq_self_eq_true, Bool.true_and]
  rw [Bool.and_eq_true]
  constructor
  · cases hDR : digRep now with
    | nil => exact absurd hDR (digRep_ne_nil now)
    | cons c t => rfl
  · have htail : uuid.data ++ '-' :: (sanitizeFilename fn).data =
        a ++ '-' :: (r ++ '-' :: (sanitizeFilename fn).data) := by
      rw [hdecomp]
      simp [List.append_assoc]
    rw [midMatch, htail, List.any_eq_true]
    refine ⟨8, List.mem_range.mpr ?_, ?_⟩
    · simp only [List.length_append, List.length_cons]
      omega
    · rw [midSplitOK]
      have htake : (a ++ '-' :: (r ++ '-' :: (sanitizeFilename fn).data)).take 8
          = a := List.take_left' hlen
      have hgetD : (a ++ '-' :: (r ++ '-' :: (sanitizeFilename fn).data)).getD 8 ' '
          = '-' := by
        rw [List.getD_append_right _ _ _ _ (by omega)]
        simp [hlen]
      have hdrop : (a ++ '-' :: (r ++ '-' :: (sanitizeFilename fn).data)).drop 9
          = r ++ '-' :: (sanitizeFilename fn).data := by
        have : a ++ '-' :: (r ++ '-' :: (sanitizeFilename fn).data) =
            (a ++ ['-']) ++ (r ++ '-' :: (sanitizeFilename fn).data) := by
          simp [List.append_assoc]
        rw [this]
        exact List.drop_left' (by simp [hlen])
      rw [htake, hgetD, hdrop]
      simp only [Bool.and_eq_true]
      refine ⟨⟨⟨by decide, ?_⟩, by simp⟩, ?_⟩
      · rw [List.all_eq_true] at hahex ⊢
        intro c hc
        simp [isWordOrHyphen, hex_isWordChar (hahex c hc)]
      · rw [List.all_append]
        simp only [Bool.and_eq_true]
        constructor
        · rw [List.all_eq_true] at hrcls ⊢
          intro c hc
          exact hexOrHyphen_dotChar (hrcls c hc)
        · rw [List.all_cons, Bool.and_eq_true]
          exact ⟨by decide, sanitize_dotChar hfn⟩

/-! ### Key uniqueness and length -/

lemma uuidCheck_length {l : List Char} (h : uuidCheck l = true) :
    l.length = 36 := by
  obtain ⟨_, _, _, _, _, _, hlen⟩ := uuidCheck_parts h
  exact hlen

lemma repr_all_digits (n : Nat) :
    ((Nat.repr n).data).all isAsciiDigit = true := by
  rw [repr_data]; exact digRep_all_digits n

lemma uploadKey_inj {t1 t2 : Nat} {u1 u2 f1 f2 : String}
    (h1 : uuidCheck u1.data = true) (h2 : uuidCheck u2.data = true)
    (heq : uploadKey t1 u1 f1 = uploadKey t2 u2 f2) :
    t1 = t2 ∧ u1 = u2 := by
  have hd := congrArg String.data heq
  rw [uploadKey_data, uploadKey_data] at hd
  have hd2 := List.append_cancel_left hd
  have hc1 := takeWhile_ctx (p := isAsciiDigit)
    (u1.data ++ '-' :: (sanitizeFilename f1).data)
    (repr_all_digits t1) (by decide : isAsciiDigit '-' = false)
  have hc2 := takeWhile_ctx (p := isAsciiDigit)
    (u2.data ++ '-' :: (sanitizeFilename f2).data)
    (repr_all_digits t2) (by decide : isAsciiDigit '-' = false)
  have hD : (Nat.repr t1).data = (Nat.repr t2).data := by
    have := congrArg (List.takeWhile isAsciiDigit) hd2
    rwa [hc1.1, hc2.1] at this
  have ht : t1 = t2 := repr_inj (str_eq_of_data hD)
  have hrest : u1.data ++ '-' :: (sanitizeFilename f1).data =
      u2.data ++ '-' :: (sanitizeFilename f2).data := by
    have := congrArg (List.dropWhile isAsciiDigit) hd2
    rw [hc1.2, hc2.2] at this
    exact List.tail_eq_of_cons_eq this
  have hulen : u1.data.length = u2.data.length := by
    rw [uuidCheck_length h1, uuidCheck_length h2]
  have hu : u1.data = u2.data := (List.append_inj hrest hulen).1
  exact ⟨ht, str_eq_of_data hu⟩

lemma uploadKey_length (t : Nat) (u f : String) (hu : uuidCheck u.data = true) :
    47 ≤ (uploadKey t u f).data.length := by
  rw [uploadKey_data, repr_data]
  have h36 := uuidCheck_length hu
  have h8 : ("uploads/".data).length = 8 := by decide
  have hne : 1 ≤ (digRep t).length := by
    cases hdr : digRep t with
    | nil => exact absurd hdr (digRep_ne_nil t)
    | cons c l => simp
  simp only [List.length_append, List.length_cons, h8, h36]
  omega

/-! ### Concrete evaluations of the embedding -/

lemma uploadKey_ne_empty (now : Nat) (uuid fn : String) :
    (uploadKey now uuid fn).isEmpty = false := by
  cases hE : (uploadKey now uuid fn).isEmpty
  · rfl
  · exfalso
    have hkey := (String.isEmpty_iff _).mp hE
    have hd := congrArg String.data hkey
    rw [uploadKey_data,
      show "uploads/".data = 'u' :: 'p' :: 'l' :: 'o' :: 'a' :: 'd' :: 's' :: '/' :: [] from rfl] at hd
    simp at hd

/-! ### Claim C1

The spec claims every character of the filename outside `[A-Za-z0-9_.\-]` is
replaced by an underscore in the issued key. The source regex `[^\w\s.-]`
additionally keeps JS whitespace, so a space in the filename survives into
the key unchanged: the claim is false, and the amended version replaces the
allowed set by `[\w\s.-]` (word characters, JS whitespace, dot, hyphen). -/

/-- Counterexample to C1 as stated: with filename `"a b.png"`, the issued key
is `uploads/5-u-a b.png`, which contains the space character; the space is
outside the spec's allowed class `[A-Za-z0-9_.\-]` yet was not replaced
by an underscore. -/
theorem claim_C1_counterexample :
    (handleUploadUrl (some ⟨"r", "ak", "sk"⟩)
        ⟨some "ak", some "sk", some "r", "bkt", none⟩
        (UploadBody.parsed (some "a b.png") (some "image/png"))
        5 "u" (Except.ok "url")).response.body =
      RespBody.uploadSuccess "url" "uploads/5-u-a b.png" "bkt" ∧
    specAllowedChar ' ' = false ∧
    ' ' ∈ "uploads/5-u-a b.png".data ∧ ' ' ∈ "a b.png".data := by
  exact ⟨by decide, by decide, by decide, by decide⟩

/-- C1 (amended): for every valid `(filename, filetype)` the issuer's 200
response carries the key `uploadKey now uuid filename`, which begins with the
literal `uploads/`; the filename segment is the input sanitized
character-wise: its length is preserved, every character of it lies in
`[\w\s.-]` (word characters, JS whitespace, dot, hyphen), characters of the
input outside that class are replaced by `_`, and characters inside it are
kept unchanged. -/
theorem claim_C1_theorem (c : S3Client) (env : WorkerEnv)
    (fn ft url uuid : String) (now i : Nat)
    (h1 : fn.isEmpty = false) (h2 : ft.isEmpty = false) :
    (handleUploadUrl (some c) env (UploadBody.parsed (some fn) (some ft))
        now uuid (Except.ok url)).response.body =
      RespBody.uploadSuccess url (uploadKey now uuid fn) env.AWS_S3_BUCKET ∧
    (∃ rest, uploadKey now uuid fn = "uploads/" ++ rest) ∧
    (sanitizeFilename fn).length = fn.length ∧
    (sanitizeFilename fn).data.all jsKeepChar = true ∧
    (jsKeepChar (fn.data.getD i '_') = false →
      (sanitizeFilename fn).data.getD i '_' = '_') ∧
    (jsKeepChar (fn.data.getD i '_') = true →
      (sanitizeFilename fn).data.getD i '_' = fn.data.getD i '_') := by
  refine ⟨?_, ?_, ?_, ?_, ?_, ?_⟩
  · simp [handleUploadUrl, truthyOpt, h1, h2, corsResponse]
  · exact ⟨Nat.repr now ++ "-" ++ uuid ++ "-" ++ sanitizeFilename fn,
      str_eq_of_data (by simp [uploadKey, str_data_append, List.append_assoc])⟩
  · show (sanitizeFilename fn).data.length = fn.data.length
    rw [sanitize_data, List.length_map]
  · rw [sanitize_data, List.all_map, List.all_eq_true]
    intro ch _
    simp only [Function.comp_apply]
    by_cases hk : jsKeepChar ch = true
    · rw [if_pos hk]; exact hk
    · rw [if_neg hk]; decide
  · intro hnk
    rw [sanitize_data, List.getD_eq_getElem?_getD, List.getElem?_map]
    rw [List.getD_eq_getElem?_getD] at hnk
    cases hx : fn.data[i]? with
    | none => rw [hx] at hnk; exact absurd hnk (by decide)
    | some a =>
      rw [hx] at hnk
      simp only [Option.getD_some] at hnk
      simp [hnk]
  · intro hk
    rw [sanitize_data, List.getD_eq_getElem?_getD, List.getElem?_map,
      List.getD_eq_getElem?_getD]
    rw [List.getD_eq_getElem?_getD] at hk
    cases hx : fn.data[i]? with
    | none => simp
    | some a =>
      rw [hx] at hk
      simp only [Option.getD_some] at hk
      simp [hk]

/-- Witness for `claim_C1_theorem` at filename `"a@b.png"`: the `@` is
replaced by `_` in the issued key. -/
theorem claim_C1_witness :
    (handleUploadUrl (some ⟨"r", "ak", "sk"⟩)
        ⟨some "ak", some "sk", some "r", "bkt", none⟩
        (UploadBody.parsed (some "a@b.png") (some "image/png"))
        7 "u" (Except.ok "url")).response.body =
      RespBody.uploadSuccess "url" "uploads/7-u-a_b.png" "bkt" := by
  have h := claim_C1_theorem ⟨"r", "ak", "sk"⟩
    ⟨some "ak", some "sk", some "r", "bkt", none⟩
    "a@b.png" "image/png" "url" "u" 7 1 (by decide) (by decide)
  exact h.1.trans (by decide)

/-! ### Claim C2

The spec claims the validator accepts exactly the keys matching
`^uploads/\d+-\S+-.*$`. The source tests `^uploads\/\d+-[\w-]+-.*$`: the
middle segment admits only word characters and hyphens, not arbitrary
non-whitespace. The key `uploads/1-a.b-c` separates the two. -/

/-- Counterexample to C2 as stated: `uploads/1-a.b-c` matches the spec's
pattern `^uploads/\d+-\S+-.*$` but the validator rejects it with a 400
`Invalid key format` response. -/
theorem claim_C2_counterexample :
    specKeyMatch "uploads/1-a.b-c" = true ∧
    confirmKeyMatch "uploads/1-a.b-c" = false ∧
    (handleConfirmUpload ⟨some "ak", some "sk", some "r", "bkt", none⟩
        (ConfirmBody.parsed (some "uploads/1-a.b-c"))).response.status = 400 ∧
    (handleConfirmUpload ⟨some "ak", some "sk", some "r", "bkt", none⟩
        (ConfirmBody.parsed (some "uploads/1-a.b-c"))).response.body =
      RespBody.errorOnly "Invalid key format" := by
  exact ⟨by decide, by decide, by decide, by decide⟩

/-- C2 (amended): for every non-empty key, the validator succeeds (status
200) exactly when the key matches `^uploads/\d+-[\w-]+-.*$` (the middle
segment admits word characters and hyphens only), and every non-matching
non-empty key fails with a 400 response whose body is
`Invalid key format`. -/
theorem claim_C2_theorem (env : WorkerEnv) (k : String)
    (hk : k.isEmpty = false) :
    ((handleConfirmUpload env (ConfirmBody.parsed (some k))).response.status
        = 200 ↔ confirmKeyMatch k = true) ∧
    (confirmKeyMatch k = false →
      (handleConfirmUpload env
          (ConfirmBody.parsed (some k))).response.status = 400 ∧
      (handleConfirmUpload env (ConfirmBody.parsed (some k))).response.body =
        RespBody.errorOnly "Invalid key format") := by
  cases hm : confirmKeyMatch k with
  | false => simp [handleConfirmUpload, truthyOpt, hk, hm, corsResponse]
  | true => simp [handleConfirmUpload, truthyOpt, hk, hm, corsResponse]

/-- Witness for `claim_C2_theorem`: a concrete matching key is accepted. -/
theorem claim_C2_witness :
    (handleConfirmUpload ⟨some "ak", some "sk", some "r", "bkt", none⟩
        (ConfirmBody.parsed (some "uploads/12-abc-photo.png"))).response.status
      = 200 :=
  ( claim_C2_theorem ⟨some "ak", some "sk", some "r", "bkt", none⟩
    "uploads/12-abc-photo.png" (by decide)).1.mpr (by decide)

/-! ### Claim C3

The end-to-end example in the spec is false: `"my photo.png"` sanitizes to
itself (the space is kept), so the issued key ends in `-my photo.png`, not
`-my_photo.png`. The round trip itself holds whenever the filename contains
no JS line terminator (a filename containing e.g. a newline yields a key the
validator rejects, because the newline survives sanitization and `.` does
not match it). -/

/-- Counterexample to C3 as stated: with filename `"my photo.png"` the
issued key keeps the space, so it does not end in `my_photo.png` and hence
cannot match `uploads/<digits>-<uuid>-my_photo.png`. -/
theorem claim_C3_counterexample :
    (handleUploadUrl (some ⟨"r", "ak", "sk"⟩)
        ⟨some "ak", some "sk", some "r", "bkt", none⟩
        (UploadBody.parsed (some "my photo.png") (some "image/png"))
        5 "aaaaaaaa-bbbb-4ccc-8ddd-eeeeeeeeeeee"
        (Except.ok "url")).response.body =
      RespBody.uploadSuccess "url"
        "uploads/5-aaaaaaaa-bbbb-4ccc-8ddd-eeeeeeeeeeee-my photo.png" "bkt" ∧
    List.isSuffixOf "my_photo.png".data
      "uploads/5-aaaaaaaa-bbbb-4ccc-8ddd-eeeeeeeeeeee-my photo.png".data
      = false := by
  exact ⟨by decide, by decide⟩

/-- C3 (amended): for every valid `(filename, filetype)` whose filename
contains no JS line terminator, and every UUID-shaped `uuid`, the issuer
returns 200 with key `uploadKey now uuid filename` (for `"my photo.png"`
the filename segment is `my photo.png`, space preserved), and feeding that
key to the validator yields 200 with
`imageUrl = https://<bucket>.s3.amazonaws.com/<key>`. -/
theorem claim_C3_theorem (c : S3Client) (env : WorkerEnv) (now : Nat)
    (uuid fn ft url : String)
    (hu : uuidCheck uuid.data = true)
    (h1 : fn.isEmpty = false) (h2 : ft.isEmpty = false)
    (hfn : fn.data.all (fun ch => !(isLineTerm ch)) = true) :
    (handleUploadUrl (some c) env (UploadBody.parsed (some fn) (some ft))
        now uuid (Except.ok url)).response.status = 200 ∧
    (handleUploadUrl (some c) env (UploadBody.parsed (some fn) (some ft))
        now uuid (Except.ok url)).response.body =
      RespBody.uploadSuccess url (uploadKey now uuid fn) env.AWS_S3_BUCKET ∧
    (handleConfirmUpload env
        (ConfirmBody.parsed (some (uploadKey now uuid fn)))).response.status
      = 200 ∧
    (handleConfirmUpload env
        (ConfirmBody.parsed (some (uploadKey now uuid fn)))).response.body =
      RespBody.confirmSuccess "Upload confirmed!"
        ("https://" ++ env.AWS_S3_BUCKET ++ ".s3.amazonaws.com/"
          ++ uploadKey now uuid fn) := by
  have hmatch := issuedKey_matches now hu hfn
  have hne := uploadKey_ne_empty now uuid fn
  refine ⟨?_, ?_, ?_, ?_⟩ <;>
    simp [handleUploadUrl, handleConfirmUpload, truthyOpt, h1, h2, hne,
      hmatch, corsResponse]

/-- Witness for `claim_C3_theorem` at the spec's own example inputs. -/
theorem claim_C3_witness :
    (handleConfirmUpload ⟨some "ak", some "sk", some "r", "bkt", none⟩
        (ConfirmBody.parsed
          (some "uploads/5-aaaaaaaa-bbbb-4ccc-8ddd-eeeeeeeeeeee-my photo.png"))).response.body
      = RespBody.confirmSuccess "Upload confirmed!"
          "https://bkt.s3.amazonaws.com/uploads/5-aaaaaaaa-bbbb-4ccc-8ddd-eeeeeeeeeeee-my photo.png" := by
  have h := claim_C3_theorem ⟨"r", "ak", "sk"⟩
    ⟨some "ak", some "sk", some "r", "bkt", none⟩ 5
    "aaaaaaaa-bbbb-4ccc-8ddd-eeeeeeeeeeee" "my photo.png" "image/png" "url"
    (by decide) (by decide) (by decide) (by decide)
  have hkey : uploadKey 5 "aaaaaaaa-bbbb-4ccc-8ddd-eeeeeeeeeeee" "my photo.png"
      = "uploads/5-aaaaaaaa-bbbb-4ccc-8ddd-eeeeeeeeeeee-my photo.png" := by
    decide
  have h4 := h.2.2.2
  rw [hkey] at h4
  exact h4.trans (by decide)

/-! ### Claim C4 -/

/-- C4 (confirmed): for every key the validator accepts, the result is
status 200, `success: true` with the message `Upload confirmed!`, and
`imageUrl` is exactly `https://<bucket>.s3.amazonaws.com/<key>`. -/
theorem claim_C4_theorem (env : WorkerEnv) (k : String)
    (hk : k.isEmpty = false) (hm : confirmKeyMatch k = true) :
    (handleConfirmUpload env
        (ConfirmBody.parsed (some k))).response.status = 200 ∧
    (handleConfirmUpload env (ConfirmBody.parsed (some k))).response.body =
      RespBody.confirmSuccess "Upload confirmed!"
        ("https://" ++ env.AWS_S3_BUCKET ++ ".s3.amazonaws.com/" ++ k) ∧
    (handleConfirmUpload env
        (ConfirmBody.parsed (some k))).backendCalled = false := by
  simp [handleConfirmUpload, truthyOpt, hk, hm, corsResponse]

/-- Witness for `claim_C4_theorem` at a concrete accepted key. -/
theorem claim_C4_witness :
    (handleConfirmUpload ⟨some "ak", some "sk", some "r", "bkt", none⟩
        (ConfirmBody.parsed (some "uploads/1-a-b"))).response.body =
      RespBody.confirmSuccess "Upload confirmed!"
        "https://bkt.s3.amazonaws.com/uploads/1-a-b" := by
  have h := ( claim_C4_theorem ⟨some "ak", some "sk", some "r", "bkt", none⟩
    "uploads/1-a-b" (by decide) (by decide)).2.1
  exact h.trans (by decide)

/-! ### Claim C5

The claim says missing `filename`/`filetype` yields a 400 regardless of any
other state. But `handleUploadUrl` throws on an uninitialized client before
reading the body, so with missing credentials such a request gets a 500, not
a 400. The 400-with-no-backend-call behavior holds whenever the client is
initialized. -/

/-- Counterexample to C5 as stated: with an uninitialized client (missing
credentials), a request with missing `filetype` returns 500, not 400. -/
theorem claim_C5_counterexample :
    initS3Client none ⟨none, none, none, "bkt", none⟩ = none ∧
    (handleUploadUrl none ⟨none, none, none, "bkt", none⟩
        (UploadBody.parsed (some "a.png") none) 0 "u"
        (Except.ok "url")).response.status = 500 ∧
    ¬((handleUploadUrl none ⟨none, none, none, "bkt", none⟩
        (UploadBody.parsed (some "a.png") none) 0 "u"
        (Except.ok "url")).response.status = 400) := by
  exact ⟨by decide, by decide, by decide⟩

/-- C5 (amended): when the storage client is initialized, a parsed request
with missing or empty `filename` or `filetype` always yields status 400 with
body `Missing required parameters: filename and filetype` and no backend
call; when the client is uninitialized, such a request instead fails with
500 before validation, still without a backend call. -/
theorem claim_C5_theorem (c : S3Client) (env : WorkerEnv)
    (fn ft : Option String) (now : Nat) (uuid : String)
    (sg : Except String String)
    (h : truthyOpt fn = false ∨ truthyOpt ft = false) :
    ((handleUploadUrl (some c) env (UploadBody.parsed fn ft) now uuid
        sg).response.status = 400 ∧
     (handleUploadUrl (some c) env (UploadBody.parsed fn ft) now uuid
        sg).response.body =
       RespBody.errorOnly "Missing required parameters: filename and filetype" ∧
     (handleUploadUrl (some c) env (UploadBody.parsed fn ft) now uuid
        sg).backendCalled = false) ∧
    ((handleUploadUrl none env (UploadBody.parsed fn ft) now uuid
        sg).response.status = 500 ∧
     (handleUploadUrl none env (UploadBody.parsed fn ft) now uuid
        sg).backendCalled = false) := by
  rcases h with h | h <;> simp [handleUploadUrl, h, corsResponse]

/-- Witness for `claim_C5_theorem` with an empty filetype. -/
theorem claim_C5_witness :
    (handleUploadUrl (some ⟨"r", "ak", "sk"⟩)
        ⟨some "ak", some "sk", some "r", "bkt", none⟩
        (UploadBody.parsed (some "a.png") (some "")) 3 "u"
        (Except.ok "url")).response.status = 400 :=
  ( claim_C5_theorem ⟨"r", "ak", "sk"⟩
    ⟨some "ak", some "sk", some "r", "bkt", none⟩
    (some "a.png") (some "") 3 "u" (Except.ok "url")
    (Or.inr (by decide))).1.1

/-! ### Claim C6 -/

/-- C6 (confirmed): if any of the access key, secret key or region is
absent (or empty, which the JS guard also treats as missing), the client is
never constructed, and every issuer request fails with a 500 response whose
body carries the error and the client-initialization detail message, with no
backend call. -/
theorem claim_C6_theorem (env : WorkerEnv) (bd : UploadBody) (now : Nat)
    (uuid : String) (sg : Except String String)
    (h : truthyOpt env.AWS_ACCESS_KEY_ID = false ∨
      truthyOpt env.AWS_SECRET_ACCESS_KEY = false ∨
      truthyOpt env.AWS_REGION = false) :
    initS3Client none env = none ∧
    (handleUploadUrl (initS3Client none env) env bd now uuid
      sg).response.status = 500 ∧
    (handleUploadUrl (initS3Client none env) env bd now uuid
      sg).response.body =
      RespBody.errorDetails "Failed to generate upload URL" s3InitFailMsg ∧
    (handleUploadUrl (initS3Client none env) env bd now uuid
      sg).backendCalled = false := by
  have hinit : initS3Client none env = none := by
    rcases h with h | h | h <;> simp [initS3Client, h]
  rw [hinit]
  exact ⟨rfl, rfl, rfl, rfl⟩

/-- Witness for `claim_C6_theorem`: missing access key disables the
issuer. -/
theorem claim_C6_witness :
    (handleUploadUrl
        (initS3Client none ⟨none, some "sk", some "r", "bkt", none⟩)
        ⟨none, some "sk", some "r", "bkt", none⟩
        (UploadBody.parsed (some "a.png") (some "image/png")) 1 "u"
        (Except.ok "url")).response.status = 500 :=
  ( claim_C6_theorem ⟨none, some "sk", some "r", "bkt", none⟩
    (UploadBody.parsed (some "a.png") (some "image/png")) 1 "u"
    (Except.ok "url") (Or.inl (by decide))).2.1

/-! ### Claim C7 -/

/-- C7 (confirmed): two issuer invocations with distinct `(timestamp, UUID)`
draws produce distinct keys, for any filenames. The proof cancels the
`uploads/` literal, recovers the timestamp as the maximal digit run (the
UUID after it starts after a hyphen), and uses that both UUID strings have
the fixed 36-character shape of `crypto.randomUUID()`. -/
theorem claim_C7_theorem (t1 t2 : Nat) (u1 u2 f1 f2 : String)
    (h1 : uuidCheck u1.data = true) (h2 : uuidCheck u2.data = true)
    (hne : (t1, u1) ≠ (t2, u2)) :
    uploadKey t1 u1 f1 ≠ uploadKey t2 u2 f2 := by
  intro heq
  obtain ⟨ht, hu⟩ := uploadKey_inj h1 h2 heq
  exact hne (by rw [ht, hu])

/-- Witness for `claim_C7_theorem` with two concrete timestamps. -/
theorem claim_C7_witness :
    uploadKey 0 "aaaaaaaa-bbbb-4ccc-8ddd-eeeeeeeeeeee" "x.png" ≠
      uploadKey 1 "aaaaaaaa-bbbb-4ccc-8ddd-eeeeeeeeeeee" "x.png" :=
  claim_C7_theorem 0 1 "aaaaaaaa-bbbb-4ccc-8ddd-eeeeeeeeeeee"
    "aaaaaaaa-bbbb-4ccc-8ddd-eeeeeeeeeeee" "x.png" "x.png"
    (by decide) (by decide) (by decide)

/-! ### Claim C8 -/

/-- C8 (confirmed): the validator is a pure function of `(env, body)` (two
runs agree), never reaches the storage backend on any input, and accepts the
shape-matching key `uploads/1-a-b` even though no issuer invocation with a
genuine UUID draw can ever produce it (every issued key has at least 47
characters). -/
theorem claim_C8_theorem (env : WorkerEnv) (bd : ConfirmBody) :
    (handleConfirmUpload env bd).backendCalled = false ∧
    handleConfirmUpload env bd = handleConfirmUpload env bd ∧
    confirmKeyMatch "uploads/1-a-b" = true ∧
    (handleConfirmUpload env
      (ConfirmBody.parsed (some "uploads/1-a-b"))).response.status = 200 ∧
    (∀ (t : Nat) (u f : String), uuidCheck u.data = true →
      uploadKey t u f ≠ "uploads/1-a-b") := by
  refine ⟨?_, rfl, by decide, ?_, ?_⟩
  · cases bd with
    | malformed m => rfl
    | parsed k =>
      simp only [handleConfirmUpload]
      split
      · rfl
      · split
        · rfl
        · rfl
  · have hk : ("uploads/1-a-b" : String).isEmpty = false := by decide
    have hm : confirmKeyMatch "uploads/1-a-b" = true := by decide
    simp [handleConfirmUpload, truthyOpt, hk, hm, corsResponse]
  · intro t u f hu hkey
    have hlen := uploadKey_length t u f hu
    rw [hkey] at hlen
    revert hlen
    decide

/-- Witness for `claim_C8_theorem`: the accepted key `uploads/1-a-b` is not
producible by the issuer for a concrete UUID draw. -/
theorem claim_C8_witness :
    uploadKey 1 "aaaaaaaa-bbbb-4ccc-8ddd-eeeeeeeeeeee" "a-b" ≠
      "uploads/1-a-b" :=
  ( claim_C8_theorem ⟨some "ak", some "sk", some "r", "bkt", none⟩
    (ConfirmBody.parsed (some "uploads/1-a-b"))).2.2.2.2
    1 "aaaaaaaa-bbbb-4ccc-8ddd-eeeeeeeeeeee" "a-b" (by decide)

/-! ### Claim C9 -/

lemma corsResponse_headers (b : RespBody) (env : WorkerEnv) (s : Nat) :
    (corsResponse b env s).accessControlAllowOrigin = jsOrigin env ∧
    (corsResponse b env s).contentType = "application/json" ∧
    ((corsResponse b env s).status = 200 →
      (corsResponse b env s).cacheControl = "private, no-cache") ∧
    ((corsResponse b env s).status ≠ 200 →
      (corsResponse b env s).cacheControl = "no-store") := by
  refine ⟨rfl, rfl, ?_, ?_⟩
  · intro h
    have hs : s = 200 := h
    simp [corsResponse, hs]
  · intro h
    have hs : ¬((s == 200) = true) := by simpa using h
    simp [corsResponse, hs]

lemma uploadResp_cors (c : Option S3Client) (env : WorkerEnv)
    (bd : UploadBody) (now : Nat) (uuid : String)
    (sg : Except String String) :
    ∃ b s, (handleUploadUrl c env bd now uuid sg).response =
      corsResponse b env s := by
  cases c with
  | none => exact ⟨_, _, rfl⟩
  | some c' =>
    cases bd with
    | malformed m => exact ⟨_, _, rfl⟩
    | parsed fn ft =>
      simp only [handleUploadUrl]
      split
      · exact ⟨_, _, rfl⟩
      · cases sg with
        | error m => exact ⟨_, _, rfl⟩
        | ok u => exact ⟨_, _, rfl⟩

lemma confirmResp_cors (env : WorkerEnv) (bd : ConfirmBody) :
    ∃ b s, (handleConfirmUpload env bd).response = corsResponse b env s := by
  cases bd with
  | malformed m => exact ⟨_, _, rfl⟩
  | parsed k =>
    simp only [handleConfirmUpload]
    split
    · exact ⟨_, _, rfl⟩
    · split
      · exact ⟨_, _, rfl⟩
      · exact ⟨_, _, rfl⟩

/-- C9 (confirmed): every JSON response of either handler carries the
`Access-Control-Allow-Origin` header equal to the configured origin
(`jsOrigin`, which defaults to `*` when `ALLOWED_ORIGIN` is absent) and the
`application/json` content type; a 200 response carries
`Cache-Control: private, no-cache` and a non-200 response carries
`Cache-Control: no-store`. -/
theorem claim_C9_theorem (c : Option S3Client) (env : WorkerEnv)
    (bd : UploadBody) (now : Nat) (uuid : String) (sg : Except String String)
    (cbd : ConfirmBody) :
    ((handleUploadUrl c env bd now uuid sg).response.accessControlAllowOrigin
        = jsOrigin env ∧
     (handleUploadUrl c env bd now uuid sg).response.contentType
        = "application/json" ∧
     ((handleUploadUrl c env bd now uuid sg).response.status = 200 →
       (handleUploadUrl c env bd now uuid sg).response.cacheControl
         = "private, no-cache") ∧
     ((handleUploadUrl c env bd now uuid sg).response.status ≠ 200 →
       (handleUploadUrl c env bd now uuid sg).response.cacheControl
         = "no-store")) ∧
    ((handleConfirmUpload env cbd).response.accessControlAllowOrigin
        = jsOrigin env ∧
     (handleConfirmUpload env cbd).response.contentType
        = "application/json" ∧
     ((handleConfirmUpload env cbd).response.status = 200 →
       (handleConfirmUpload env cbd).response.cacheControl
         = "private, no-cache") ∧
     ((handleConfirmUpload env cbd).response.status ≠ 200 →
       (handleConfirmUpload env cbd).response.cacheControl = "no-store")) ∧
    (env.ALLOWED_ORIGIN = none → jsOrigin env = "*") := by
  obtain ⟨b1, s1, h1⟩ := uploadResp_cors c env bd now uuid sg
  obtain ⟨b2, s2, h2⟩ := confirmResp_cors env cbd
  rw [h1, h2]
  have hc1 := corsResponse_headers b1 env s1
  have hc2 := corsResponse_headers b2 env s2
  exact ⟨hc1, hc2, fun h => by simp [jsOrigin, h]⟩

/-- Witness for `claim_C9_theorem`: a concrete 200 response carries the
non-shared-cache header. -/
theorem claim_C9_witness :
    (handleConfirmUpload ⟨some "ak", some "sk", some "r", "bkt", none⟩
        (ConfirmBody.parsed (some "uploads/1-a-b"))).response.cacheControl =
      "private, no-cache" := by
  have h := claim_C9_theorem none ⟨some "ak", some "sk", some "r", "bkt", none⟩
    (UploadBody.malformed "m") 0 "u" (Except.ok "url")
    (ConfirmBody.parsed (some "uploads/1-a-b"))
  exact h.2.1.2.2.1 (by decide)

/-! ### Claim C10 -/

/-- C10 (confirmed): a request whose body fails to parse (or, for the
validator, whose destructuring throws) always lands in the generic catch:
status 500 with an `error` and `details` body, never a 400 validation
error — for the issuer this holds whether or not the client is
initialized. -/
theorem claim_C10_theorem (env : WorkerEnv) (c : Option S3Client)
    (m1 m2 : String) (now : Nat) (uuid : String)
    (sg : Except String String) :
    ((handleUploadUrl c env (UploadBody.malformed m1) now uuid
        sg).response.status = 500 ∧
     (∃ d, (handleUploadUrl c env (UploadBody.malformed m1) now uuid
        sg).response.body =
       RespBody.errorDetails "Failed to generate upload URL" d) ∧
     (handleUploadUrl c env (UploadBody.malformed m1) now uuid
        sg).response.status ≠ 400) ∧
    ((handleConfirmUpload env (ConfirmBody.malformed m2)).response.status
        = 500 ∧
     (handleConfirmUpload env (ConfirmBody.malformed m2)).response.body =
       RespBody.errorDetails "Failed to confirm upload" m2 ∧
     (handleConfirmUpload env (ConfirmBody.malformed m2)).response.status
        ≠ 400) := by
  constructor
  · cases c with
    | none => exact ⟨rfl, ⟨s3InitFailMsg, rfl⟩,
        fun h => absurd (show (500 : Nat) = 400 from h) (by decide)⟩
    | some c' => exact ⟨rfl, ⟨m1, rfl⟩,
        fun h => absurd (show (500 : Nat) = 400 from h) (by decide)⟩
  · exact ⟨rfl, rfl,
      fun h => absurd (show (500 : Nat) = 400 from h) (by decide)⟩

example : sanitizeFilename "my photo.png" = "my photo.png" := by decide
example : sanitizeFilename "a@b.png" = "a_b.png" := by decide
example : confirmKeyMatch "uploads/1-a-b" = true := by decide
example : confirmKeyMatch "uploads/1-a.b-c" = false := by decide
example : specKeyMatch "uploads/1-a.b-c" = true := by decide
example : confirmKeyMatch "uploads/123-abc-def-file.png" = true := by decide
example : confirmKeyMatch "uploads/1-a-b\nx" = false := by decide
example : uuidCheck "aaaaaaaa-bbbb-4ccc-8ddd-eeeeeeeeeeee".data = true := by decide
example : uploadKey 5 "u" "a b.png" = "uploads/5-u-a b.png" := by decide

end UploadWorker
